import Mathlib

/-!
# Verification of the CouncilOfAgents coordination core

Shallow embedding of the debate-resolution core of the repository:
the `Claim` state machine (`backend/coordination/claims.py`), the critic's
`critique_factor` resolution algorithm (`backend/agents/critic_agent.py`),
the supporting agent's evidence signalling and reactive handlers
(`backend/agents/supporting_agent.py`), the message-bus idempotency flags
(`backend/coordination/message_bus.py`), the `ResolutionTracker`
(`backend/validation/resolution_tracker.py`) and the `IntegrityChecker`
(`backend/validation/integrity_checker.py`).

Python strings are modelled as Lean `String` (a list of characters; Python
`str` is a sequence of code points, so indexing/slicing agree), floats as `ℚ`
(the arithmetic that occurs — subtraction of 0.2/0.3, `max` with 0, literal
constants — is exact in both), dicts keyed by factor id as association lists,
and the LLM oracle's reply as an explicit `response : String` input.
Timestamps are omitted: no claim depends on them.
-/

/-! ## String helpers

Python string operations (`in`, `.lower()`, `.upper()`, `.strip()`,
`.split('\n')`, `.startswith`, `.replace`, slicing) are modelled by
char-list functions so that everything reduces in the kernel. -/

/-- Case-sensitive: does `p` occur as a prefix of `l`? (Python `startswith`.) -/
def listHasPfx : List Char → List Char → Bool
  | [], _ => true
  | _ :: _, [] => false
  | p :: ps, c :: cs => p = c && listHasPfx ps cs

/-- Does `needle` occur as a contiguous sublist of `hay`? (Python `in`.) -/
def listContainsSub (needle : List Char) : List Char → Bool
  | [] => needle.isEmpty
  | c :: cs => listHasPfx needle (c :: cs) || listContainsSub needle cs

/-- Python `needle in hay` for strings. -/
def strContains (hay needle : String) : Bool :=
  listContainsSub needle.data hay.data

/-- Python `str.upper()` (ASCII; all keywords compared are ASCII). -/
def strUpper (s : String) : String := String.mk (s.data.map Char.toUpper)

/-- Python `str.lower()` (ASCII). -/
def strLower (s : String) : String := String.mk (s.data.map Char.toLower)

/-- Python `str.strip()`: remove leading and trailing whitespace. -/
def strTrim (s : String) : String :=
  String.mk (((s.data.dropWhile Char.isWhitespace).reverse.dropWhile
      Char.isWhitespace).reverse)

/-- Python `str.split(sep)` for a single-character separator. -/
def splitOnChar (sep : Char) : List Char → List (List Char)
  | [] => [[]]
  | c :: cs =>
    let r := splitOnChar sep cs
    if c = sep then [] :: r
    else
      match r with
      | h :: t => (c :: h) :: t
      | [] => [[c]]

/-- Python `str.endswith(suffix)`. -/
def strEndsWith (s suffix : String) : Bool :=
  listHasPfx suffix.data.reverse s.data.reverse

/-! ## Claim model (`backend/coordination/claims.py`) -/

/-- `ClaimStatus` enum (claims.py lines 13-20). -/
inductive ClaimStatus where
  | PENDING
  | SUPPORTED
  | CHALLENGED
  | WEAKENED
  | INVALIDATED
  | CONCEDED
deriving DecidableEq, Repr

/-- `EvidenceStrength` enum (claims.py lines 23-29); `val` is the Python value. -/
inductive EvidenceStrength where
  | NONE
  | WEAK
  | MODERATE
  | STRONG
  | CONCLUSIVE
deriving DecidableEq, Repr

/-- Numeric value of an `EvidenceStrength` member, as in the source enum. -/
def EvidenceStrength.val : EvidenceStrength → Nat
  | .NONE => 0
  | .WEAK => 1
  | .MODERATE => 2
  | .STRONG => 3
  | .CONCLUSIVE => 4

/-- `Assumption` dataclass (claims.py lines 32-37). `isValid` is the tri-state
`None / True / False`. -/
structure AssumptionR where
  description : String
  isValid : Option Bool := none
  challengeReason : Option String := none
deriving DecidableEq, Repr

/-- `Evidence` dataclass (claims.py lines 40-46). -/
structure EvidenceR where
  description : String
  strength : EvidenceStrength
  source : Option String := none
deriving DecidableEq, Repr

/-- `Claim` dataclass (claims.py lines 49-76); `created_at`/`updated_at`
timestamps omitted (wall-clock, no claim depends on them). -/
structure Claim where
  claimId : String
  content : String
  factorId : Option Int := none
  agentId : String := ""
  assumptions : List AssumptionR := []
  evidence : List EvidenceR := []
  status : ClaimStatus := ClaimStatus.PENDING
  confidence : ℚ := 1/2
  challenges : List String := []
  rebuttals : List String := []
deriving DecidableEq, Repr

/-- `Claim.weaken` (claims.py lines 104-109): confidence floored at 0 after
subtracting 0.2; SUPPORTED becomes WEAKENED, other statuses unchanged. -/
def Claim.weaken (c : Claim) (reason : String) : Claim :=
  { c with
    confidence := max 0 (c.confidence - 1/5),
    status := if c.status = ClaimStatus.SUPPORTED then ClaimStatus.WEAKENED else c.status }

/-- `Claim.invalidate` (claims.py lines 111-115). -/
def Claim.invalidate (c : Claim) (reason : String) : Claim :=
  { c with status := ClaimStatus.INVALIDATED, confidence := 0 }

/-- `Claim.concede` (claims.py lines 117-120). -/
def Claim.concede (c : Claim) : Claim :=
  { c with status := ClaimStatus.CONCEDED }

/-- `Claim._update_status` (claims.py lines 122-135). Python `a.is_valid is
False` is exactly `isValid = some false`. -/
def updateStatus (c : Claim) : Claim :=
  if !c.assumptions.isEmpty && c.assumptions.all (fun a => a.isValid == some false) then
    { c with status := ClaimStatus.INVALIDATED, confidence := 0 }
  else if c.assumptions.any (fun a => a.isValid == some false) then
    { c with status := ClaimStatus.WEAKENED, confidence := max 0 (c.confidence - 3/10) }
  else if !c.evidence.isEmpty
      && c.evidence.any (fun e => EvidenceStrength.STRONG.val ≤ e.strength.val) then
    if c.status = ClaimStatus.PENDING then { c with status := ClaimStatus.SUPPORTED } else c
  else c

/-- In-place update `self.assumptions[idx].is_valid = False;
self.assumptions[idx].challenge_reason = reason` (claims.py lines 98-99). -/
def setAssumptionInvalid : List AssumptionR → Nat → String → List AssumptionR
  | [], _, _ => []
  | a :: rest, 0, reason =>
    { a with isValid := some false, challengeReason := some reason } :: rest
  | a :: rest, n + 1, reason => a :: setAssumptionInvalid rest n reason

/-- `Claim.challenge_assumption` (claims.py lines 90-102): guard
`0 <= assumption_idx < len(self.assumptions)`; on success the assumption is
marked invalid and `_update_status` runs. Returns (Python return value,
resulting claim). -/
def Claim.challengeAssumption (c : Claim) (assumptionIdx : Int) (reason : String) :
    Bool × Claim :=
  if 0 ≤ assumptionIdx ∧ assumptionIdx < (c.assumptions.length : Int) then
    (true, updateStatus
      { c with assumptions := setAssumptionInvalid c.assumptions assumptionIdx.toNat reason })
  else (false, c)

/-! ## Messages on the bus, as the critic reads them

`critique_factor` inspects `message_bus.get_all_messages()` only for REBUTTAL
messages of the current factor (`type`, `factor_id`, `is_concession`,
`rebuttal` fields, with Python `dict.get` defaults `False` / `''`). -/

/-- A bus message as read by the critic (critic_agent.py lines 141-147 and
283-291). -/
structure BusMessage where
  type : String
  factorId : Option Int := none
  isConcession : Bool := false
  rebuttal : String := ""
deriving DecidableEq, Repr

/-- Factor validation annotations, `factor.get('validation', {})` with the
source's `get` defaults (critic_agent.py lines 135-137). -/
structure FactorValidation where
  isGrounded : Bool := true
  isCircular : Bool := false
  circularNote : Option String := none
  groundingNote : Option String := none
deriving DecidableEq, Repr

/-- An extracted factor as consumed by the critic. -/
structure Factor where
  id : Int
  name : String
  description : String
  validation : FactorValidation := {}
deriving DecidableEq, Repr

/-- One recorded sub-claim (`{"claim": ..., "status": ..., "justification":
...}` dicts built at critic_agent.py lines 328-353). -/
structure SubClaim where
  claim : String
  status : String
  justification : String
deriving DecidableEq, Repr

/-! ## Supporting agent (`backend/agents/supporting_agent.py`) -/

/-- `support_factor`'s `has_evidence` flag: `False` exactly when the model
response contains the literal `INSUFFICIENT_EVIDENCE` (supporting_agent.py
lines 149, 168, 219). -/
def supportHasEvidence (response : String) : Bool :=
  !strContains response "INSUFFICIENT_EVIDENCE"

/-- The claim status/confidence `support_factor` records: `(WEAKENED, 0.2)` on
`INSUFFICIENT_EVIDENCE`, else `(SUPPORTED, 0.7)` (supporting_agent.py lines
158-159, 208-209). -/
def supportClaimState (response : String) : ClaimStatus × ℚ :=
  if strContains response "INSUFFICIENT_EVIDENCE" then (ClaimStatus.WEAKENED, 1/5)
  else (ClaimStatus.SUPPORTED, 7/10)

/-- `rebut`'s concession test (supporting_agent.py line 274): `CONCEDE` in the
uppercased response, or no `QUOTE:` marker in it. -/
def rebuttalIsConcession (response : String) : Bool :=
  strContains (strUpper response) "CONCEDE" || !strContains (strUpper response) "QUOTE:"

/-! ## Critic resolution algorithm (`critique_factor`) -/

/-- The eight causal keywords (critic_agent.py line 157). -/
def causalKeywords : List String :=
  ["caused", "led to", "resulted in", "because", "due to", "therefore", "thus",
   "consequently"]

/-- `is_causal_claim` (critic_agent.py line 158): some causal keyword occurs in
the lowercased description or name. -/
def isCausalClaim (f : Factor) : Bool :=
  causalKeywords.any (fun k =>
    strContains (strLower f.description) k || strContains (strLower f.name) k)

/-- `is_small_context` (critic_agent.py lines 150-151): stripped input text
shorter than 500 characters. -/
def smallContext (inputText : String) : Bool :=
  (strTrim inputText).length < 500

/-- `has_concession` scan over `get_all_messages()` (critic_agent.py lines
139-147): some REBUTTAL for this factor with `is_concession=True`. -/
def hasConcessionFor (msgs : List BusMessage) (fid : Int) : Bool :=
  msgs.any (fun m => m.type = "REBUTTAL" && m.factorId = some fid && m.isConcession)

/-- First REBUTTAL message for this factor (critic_agent.py lines 283-288). -/
def firstRebuttalFor (msgs : List BusMessage) (fid : Int) : Option BusMessage :=
  msgs.find? (fun m => m.type = "REBUTTAL" && m.factorId = some fid)

/-- Case-insensitive prefix match: `pat` (given uppercased) against the input;
returns the rest of the input on success. Models `re.IGNORECASE` literals. -/
def matchCI : List Char → List Char → Option (List Char)
  | [], s => some s
  | _ :: _, [] => none
  | p :: ps, c :: cs => if c.toUpper = p then matchCI ps cs else none

/-- The token alternatives of the regex
`RESOLUTION:\s*(ACCEPTED(?:\s*\(DESCRIPTIVE ONLY\))?|PARTIALLY_ACCEPTED|REJECTED)`
tried at one position, in the regex's alternation order; the Bool is the
source's `is_descriptive_only` (already applying the normalisation of
`ACCEPTED (DESCRIPTIVE ONLY)` to `ACCEPTED`, critic_agent.py lines 258-264). -/
def parseResolutionToken (s : List Char) : Option (String × Bool) :=
  match matchCI "ACCEPTED".data (s.dropWhile Char.isWhitespace) with
  | some rest =>
    if (matchCI "(DESCRIPTIVE ONLY)".data (rest.dropWhile Char.isWhitespace)).isSome then
      some ("ACCEPTED", true)
    else some ("ACCEPTED", false)
  | none =>
    match matchCI "PARTIALLY_ACCEPTED".data (s.dropWhile Char.isWhitespace) with
    | some _ => some ("PARTIALLY_ACCEPTED", false)
    | none =>
      match matchCI "REJECTED".data (s.dropWhile Char.isWhitespace) with
      | some _ => some ("REJECTED", false)
      | none => none

/-- `re.search` for the RESOLUTION regex: the earliest position where
`RESOLUTION:` (case-insensitively) followed by whitespace and one of the token
alternatives matches (critic_agent.py line 253). -/
def findResolution : List Char → Option (String × Bool)
  | [] => none
  | c :: cs =>
    match matchCI "RESOLUTION:".data (c :: cs) with
    | some rest =>
      match parseResolutionToken rest with
      | some r => some r
      | none => findResolution cs
    | none => findResolution cs

/-- Suffix after the first case-insensitive occurrence of `pat`. -/
def findAfterCI (pat : List Char) : List Char → Option (List Char)
  | [] => none
  | c :: cs =>
    match matchCI pat (c :: cs) with
    | some rest => some rest
    | none => findAfterCI pat cs

/-- Chars before the first case-insensitive occurrence of `pat`. -/
def upToCI (pat : List Char) : List Char → List Char
  | [] => []
  | c :: cs => if (matchCI pat (c :: cs)).isSome then [] else c :: upToCI pat cs

/-- `resolution_match` parsing plus the keyword-sniffing fallback
(critic_agent.py lines 253-275): the returned Bool is `is_descriptive_only`. -/
def parsedResolution (response : String) : String × Bool :=
  match findResolution response.data with
  | some r => r
  | none =>
    if strContains (strUpper response) "ANALYTICALLY REJECTED"
        || strContains (strUpper response) "INVALID"
        || strContains (strUpper response) "REJECT" then ("REJECTED", false)
    else if strContains (strUpper response) "PARTIALLY"
        || strContains (strUpper response) "SOME" then
      ("PARTIALLY_ACCEPTED", false)
    else if strContains (strUpper response) "ACCEPT" then ("ACCEPTED", false)
    else ("REJECTED", false)

/-- `justification_match` for `JUSTIFICATION:\s*(.+?)(?:SUB-CLAIMS:|$)` with
the `See critique above` fallback (critic_agent.py lines 254, 277): text after
the first `JUSTIFICATION:`, truncated before the first `SUB-CLAIMS:`, stripped.
(The regex's lazy one-char minimum and the `$`-before-final-newline rule are
absorbed by the final strip.) -/
def parsedJustification (response : String) : String :=
  match findAfterCI "JUSTIFICATION:".data response.data with
  | none => "See critique above"
  | some rest =>
    strTrim (String.mk (upToCI "SUB-CLAIMS:".data (rest.dropWhile Char.isWhitespace)))

/-- The mechanism keywords of the causality override (critic_agent.py lines
293-296). -/
def mechanismTerms : List String :=
  ["MECHANISM", "BECAUSE", "THEREFORE", "THUS", "CONSEQUENTLY", "LEADS TO",
   "RESULTS IN", "CAUSES"]

/-- Rule 1's disjunction (critic_agent.py line 240): concession, circularity,
or ungroundedness. -/
def autoRejectCond (msgs : List BusMessage) (f : Factor) : Bool :=
  hasConcessionFor msgs f.id || f.validation.isCircular || !f.validation.isGrounded

/-- Input to one `critique_factor` call: the factor, the SUPPORT_ARGUMENT's
`has_evidence` flag, the source text, the bus log, and the LLM response.
(`has_evidence` and the support claim data feed only the prompt text, which is
outside the model — the oracle's reply is the explicit `response`.) -/
structure CritiqueInput where
  factor : Factor
  hasEvidence : Bool
  inputText : String
  messages : List BusMessage
  response : String
deriving Repr

/-- The causality override (critic_agent.py lines 279-301): when the critique
text mentions `CAUSAL`, and the first REBUTTAL for the factor re-quotes
(`QUOTE:`) without any mechanism keyword, the resolution is forced to REJECTED
with a fixed justification; otherwise `(resolution, justification)` pass
through. -/
def causalityOverride (msgs : List BusMessage) (fid : Int) (response : String)
    (rj : String × String) : String × String :=
  if strContains (strUpper response) "CAUSAL"
      || strContains (strUpper response) "CAUSALITY" then
    match firstRebuttalFor msgs fid with
    | some msg =>
      if !mechanismTerms.any (fun t => strContains (strUpper msg.rebuttal) t)
          && strContains (strUpper msg.rebuttal) "QUOTE:" then
        ("REJECTED",
         "Critic raised causality challenge - rebuttal only re-quoted document without providing causal mechanism")
      else rj
    | none => rj
  else rj

/-- The descriptive-only note (critic_agent.py lines 303-305): appended only
when `is_descriptive_only` was set and the resolution still is ACCEPTED. -/
def descriptiveNote (isDescriptiveOnly : Bool) (rj : String × String) :
    String × String :=
  if isDescriptiveOnly && rj.1 == "ACCEPTED" then
    (rj.1,
     "DESCRIPTIVE ONLY: " ++ rj.2
       ++ ". This factor describes what happened but does NOT establish causality.")
  else rj

/-- Branch 3 of `critique_factor` (critic_agent.py lines 250-305): parse the
response, apply the causality override, then append the descriptive-only note. -/
def critiqueParseBranch (inp : CritiqueInput) : String × String :=
  descriptiveNote (parsedResolution inp.response).2
    (causalityOverride inp.messages inp.factor.id inp.response
      ((parsedResolution inp.response).1, parsedJustification inp.response))

/-- The layered resolution rules of `critique_factor` (critic_agent.py lines
234-305), producing `(resolution_str, justification)` before the final guard:
auto-accept of small-context descriptive facts, auto-reject on
concession/circular/ungrounded, else the parse branch. -/
def resolutionAndJustification (inp : CritiqueInput) : String × String :=
  if !isCausalClaim inp.factor && smallContext inp.inputText
      && !autoRejectCond inp.messages inp.factor then
    ("ACCEPTED", "Descriptive fact from document - accepted without substantive debate")
  else if autoRejectCond inp.messages inp.factor then
    ("REJECTED",
      if hasConcessionFor inp.messages inp.factor.id then
        "Supporting agent conceded - unable to provide documentary evidence"
      else if inp.factor.validation.isCircular then
        "Circular reasoning detected: "
          ++ inp.factor.validation.circularNote.getD "Outcome used as cause"
          ++ " - REJECTED for causal inference"
      else if !inp.factor.validation.isGrounded then
        "Factor not grounded in document: "
          ++ inp.factor.validation.groundingNote.getD "No evidence in text"
      else "Factor failed validation")
  else critiqueParseBranch inp

/-- `bullet_points` (critic_agent.py lines 322-324): the stripped lines of the
response that start with `•`. -/
def bulletPoints (response : String) : List String :=
  ((splitOnChar '\n' response.data).map (fun l => strTrim (String.mk l))).filter
    (fun s => listHasPfx ['•'] s.data)

/-- `line.replace('•', '').strip()[:100]` (critic_agent.py lines 330, 335). -/
def bulletClaimText (s : String) : String :=
  String.mk ((strTrim (String.mk (s.data.filter (fun c => c ≠ '•')))).data.take 100)

/-- The two generic placeholder sub-claims (critic_agent.py lines 342-353). -/
def genericSubClaims : List SubClaim :=
  [{ claim := "Core argument has merit", status := "ACCEPTED",
     justification := "Partially valid based on available evidence" },
   { claim := "Some aspects require clarification", status := "NEEDS_CLARIFICATION",
     justification := "Additional evidence or context needed" }]

/-- The sub-claims `critique_factor` records (critic_agent.py lines 319-353):
built from the first two bullet points, or the generic placeholders. Note the
source first parses a `SUB-CLAIMS:` block into the same variable (lines
307-317) and then unconditionally rebinds `sub_claims = []` at line 320, so
that parse is dead code and does not reach the recorded value. -/
def subClaimsFor (resolutionStr : String) (response : String) : List SubClaim :=
  if strContains resolutionStr "PARTIALLY_ACCEPTED" then
    match bulletPoints response with
    | b0 :: b1 :: _ =>
      [{ claim := bulletClaimText b0, status := "ACCEPTED",
         justification := "Valid counter-argument acknowledged" },
       { claim := bulletClaimText b1, status := "NEEDS_CLARIFICATION",
         justification := "Requires further evidence or clarification" }]
    | _ => genericSubClaims
  else []

/-- The allowed resolutions of the final guard (critic_agent.py line 356). -/
def allowedResolutions : List String := ["ACCEPTED", "PARTIALLY_ACCEPTED", "REJECTED"]

/-- Final guard (critic_agent.py lines 355-360). In the source the fallback
justification's f-string is evaluated after `resolution_str` was already
reassigned to `REJECTED`, so `Original:` always reads `REJECTED`. -/
def finalGuard (resolutionStr justification : String) : String × String :=
  if resolutionStr ∈ allowedResolutions then (resolutionStr, justification)
  else ("REJECTED", "Invalid resolution detected - defaulting to REJECTED. Original: REJECTED")

/-- Resolution-to-claim-status mapping (critic_agent.py lines 387-396):
REJECTED ↦ (INVALIDATED, 0.9), PARTIALLY_ACCEPTED ↦ (WEAKENED, 0.5),
otherwise (CHALLENGED, 0.7). -/
def claimStatusConfidence (resolutionStr : String) : ClaimStatus × ℚ :=
  if resolutionStr = "REJECTED" then (ClaimStatus.INVALIDATED, 9/10)
  else if resolutionStr = "PARTIALLY_ACCEPTED" then (ClaimStatus.WEAKENED, 1/2)
  else (ClaimStatus.CHALLENGED, 7/10)

/-- What one `critique_factor` call records: the resolution and justification
(as set in the Resolution Tracker and the CRITIQUE message), the recorded
sub-claims, and the status/confidence of the critic's structured claim. -/
structure CritiqueResult where
  resolution : String
  justification : String
  subClaims : List SubClaim
  claimStatus : ClaimStatus
  claimConfidence : ℚ
deriving Repr

/-- `CriticAgent.critique_factor` (critic_agent.py lines 122-421), assembled in
source order: the layered rules give `(resolution_str, justification)`; the
sub-claims are computed from the pre-guard `resolution_str`; the final guard
runs; the claim status/confidence mapping uses the post-guard resolution. -/
def critiqueFactor (inp : CritiqueInput) : CritiqueResult :=
  let rj := resolutionAndJustification inp
  let sc := subClaimsFor rj.1 inp.response
  let g := finalGuard rj.1 rj.2
  let cs := claimStatusConfidence g.1
  { resolution := g.1, justification := g.2, subClaims := sc,
    claimStatus := cs.1, claimConfidence := cs.2 }

/-! ## Message-bus idempotency and the reactive handlers

`MessageBus.mark_handled` / `is_handled_by` (message_bus.py lines 104-112)
keep a per-(message, agent) flag. The two cited reactive handlers are
`CriticAgent._on_support_argument` (critic_agent.py lines 53-76) and
`SupportingAgent._on_critique` (supporting_agent.py lines 83-97); only the
publish count and the handled map matter for the claims, so a handler is
modelled as a function to (new handled map, number of downstream publishes). -/

/-- The bus's `_handled_by` map, as a list of (message id, agent id) pairs. -/
structure BusSt where
  handled : List (String × String)
deriving DecidableEq, Repr

/-- `is_handled_by` (message_bus.py lines 110-112). -/
def isHandledBy (bus : BusSt) (messageId agentId : String) : Bool :=
  decide ((messageId, agentId) ∈ bus.handled)

/-- `mark_handled` (message_bus.py lines 104-108). -/
def markHandled (bus : BusSt) (messageId agentId : String) : BusSt :=
  { handled := (messageId, agentId) :: bus.handled }

/-- A message as a reactive handler reads it: `message.get('id')` and
`message.get('factor_id')`. -/
structure InMessage where
  id : Option String := none
  factorId : Option Int := none
deriving DecidableEq, Repr

/-- Python truthiness of `message.get('id')`: `None` and `''` are falsy. -/
def truthyId : Option String → Option String
  | none => none
  | some s => if s = "" then none else some s

/-- Python truthiness of `message.get('factor_id')`: `None` and `0` are falsy. -/
def truthyFid : Option Int → Option Int
  | none => none
  | some n => if n = 0 then none else some n

/-- The critic's agent id (critic_agent.py line 28). -/
def criticAgentId : String := "critic_001"

/-- `CriticAgent._on_support_argument` (critic_agent.py lines 53-76): skip if
already handled; return on missing factor id or unknown factor; otherwise
`critique_factor` publishes exactly one CRITIQUE and the message is marked
handled. Returns the new handled map and the number of downstream publishes;
`busFactors` are the ids the bus's `get_factor` knows. -/
def criticOnSupportArgument (bus : BusSt) (busFactors : List Int) (msg : InMessage) :
    BusSt × Nat :=
  if (match truthyId msg.id with
      | some mid => isHandledBy bus mid criticAgentId
      | none => false) then (bus, 0)
  else
    match truthyFid msg.factorId with
    | none => (bus, 0)
    | some fid =>
      if busFactors.contains fid then
        (match truthyId msg.id with
         | some mid => markHandled bus mid criticAgentId
         | none => bus, 1)
      else (bus, 0)

/-- `SupportingAgent._on_critique` (supporting_agent.py lines 83-97): return on
missing factor id or when no claim is held for the factor; otherwise `rebut`
publishes exactly one REBUTTAL. There is no `is_handled_by` check and no
`mark_handled` call in this handler. Returns the number of downstream
publishes; `heldClaims` are the factor ids in `self.claims`. -/
def supportingOnCritique (heldClaims : List Int) (msg : InMessage) : Nat :=
  match truthyFid msg.factorId with
  | none => 0
  | some fid => if heldClaims.contains fid then 1 else 0

/-! ## Resolution tracker (`backend/validation/resolution_tracker.py`) -/

/-- `ResolutionStatus` enum (resolution_tracker.py lines 11-16). -/
inductive ResolutionStatus where
  | PENDING
  | ACCEPTED
  | PARTIALLY_ACCEPTED
  | REJECTED
deriving DecidableEq, Repr

/-- The `.value` string of a `ResolutionStatus` member. -/
def ResolutionStatus.val : ResolutionStatus → String
  | .PENDING => "PENDING"
  | .ACCEPTED => "ACCEPTED"
  | .PARTIALLY_ACCEPTED => "PARTIALLY_ACCEPTED"
  | .REJECTED => "REJECTED"

/-- A stored resolution record (resolution_tracker.py lines 49-56); the
timestamp is omitted. -/
structure TrackRec where
  status : String
  justification : String
  subClaims : List SubClaim
  criticAgentId : Option String
deriving DecidableEq, Repr

/-- `self.resolutions`, a dict keyed by factor id, as an association list in
insertion order with unique keys. -/
abbrev ResTracker := List (Int × TrackRec)

/-- Python dict assignment `self.resolutions[factor_id] = resolution`:
replace the entry for an existing key, else append. -/
def insertReplace : ResTracker → Int → TrackRec → ResTracker
  | [], fid, r => [(fid, r)]
  | (k, v) :: rest, fid, r =>
    if k = fid then (fid, r) :: rest else (k, v) :: insertReplace rest fid r

/-- `self.resolutions.get(factor_id)`: the value stored under the key, if
any. -/
def lookupRes : ResTracker → Int → Option TrackRec
  | [], _ => none
  | (k, v) :: rest, fid => if k = fid then some v else lookupRes rest fid

/-- `ResolutionTracker.set_resolution` (resolution_tracker.py lines 25-59):
raises `ValueError` when status is PARTIALLY_ACCEPTED and `sub_claims` is
`None` or empty (Python `not sub_claims`), before any mutation; otherwise
stores `{status: status.value, ..., sub_claims: sub_claims or []}` under the
factor id. -/
def setResolution (t : ResTracker) (factorId : Int) (status : ResolutionStatus)
    (justification : String) (subClaims : Option (List SubClaim))
    (criticAgentId : Option String) : Except String ResTracker :=
  if status = ResolutionStatus.PARTIALLY_ACCEPTED ∧ (subClaims.getD []).isEmpty then
    Except.error "PARTIALLY_ACCEPTED status requires sub_claims to be specified"
  else
    Except.ok (insertReplace t factorId
      { status := status.val, justification := justification,
        subClaims := subClaims.getD [], criticAgentId := criticAgentId })

/-- `get_rejected_factors` (resolution_tracker.py lines 90-95). -/
def getRejectedFactors (t : ResTracker) : List Int :=
  (t.filter (fun p => p.2.status = "REJECTED")).map (fun p => p.1)

/-! ## Integrity checker (`backend/validation/integrity_checker.py`) -/

/-- `validation_results` as the checker reads it: `.get('ungrounded_factors',
0)` and `.get('circular_factors', 0)`. -/
structure ValidationResults where
  ungroundedFactors : Int := 0
  circularFactors : Int := 0
deriving DecidableEq, Repr

/-- An entry of `synthesis['structured']['what_worked']`: a dict (whose
`factor_id`, possibly absent, is collected) or a non-dict item (skipped by the
`isinstance` filter, integrity_checker.py line 70). -/
inductive SynItem where
  | dict (factorId : Option Int)
  | nonDict
deriving DecidableEq, Repr

/-- The synthesis as the checker reads it: `synthesis.get('structured',
{}).get('what_worked', [])`, with absent keys modelled as the empty list. -/
structure Synthesis where
  whatWorked : List SynItem
deriving DecidableEq, Repr

/-- `{item.get('factor_id') for item in what_worked if isinstance(item, dict)}`
(integrity_checker.py line 70); note a dict without `factor_id` contributes
`None`. -/
def whatWorkedIds (syn : Synthesis) : List (Option Int) :=
  syn.whatWorked.filterMap (fun i =>
    match i with
    | SynItem.dict fid => some fid
    | SynItem.nonDict => none)

/-- `check_irrelevant_factors` (integrity_checker.py lines 16-38). -/
def checkIrrelevantFactors (vr : ValidationResults) : Bool :=
  vr.ungroundedFactors = 0

/-- `check_rejected_factors_excluded` (integrity_checker.py lines 40-88):
vacuously true without rejected factors; otherwise fails exactly when some
rejected factor id appears among the `what_worked` factor ids. -/
def checkRejectedFactorsExcluded (syn : Synthesis) (t : ResTracker) : Bool :=
  if (getRejectedFactors t).isEmpty then true
  else !(getRejectedFactors t).any (fun rid => (whatWorkedIds syn).contains (some rid))

/-- `check_circular_reasoning` (integrity_checker.py lines 90-111). -/
def checkCircularReasoning (vr : ValidationResults) : Bool :=
  vr.circularFactors = 0

/-- `check_critic_won_debate` (integrity_checker.py lines 113-135). -/
def checkCriticWonDebate (t : ResTracker) : Bool :=
  !(getRejectedFactors t).isEmpty

/-- `check_all_factors_resolved` (integrity_checker.py lines 137-162). -/
def checkAllFactorsResolved (factorIds : List Int) (t : ResTracker) : Bool :=
  (factorIds.filter (fun fid => !t.any (fun p => p.1 = fid))).isEmpty

/-- The pass/fail flags recorded in `self.checks` by `check_synthesis_validity`. -/
structure IntegrityChecks where
  irrelevantFactors : Bool
  rejectedFactorsExcluded : Bool
  circularReasoning : Bool
  criticWonDebate : Bool
  allFactorsResolved : Bool
  synthesisValid : Bool
deriving DecidableEq, Repr

/-- `check_synthesis_validity` (integrity_checker.py lines 164-202): runs all
five checks, and `is_valid = check2 and check5` — the rejected-factors-excluded
and all-factors-resolved checks only. -/
def checkSynthesisValidity (factorIds : List Int) (vr : ValidationResults)
    (t : ResTracker) (syn : Synthesis) : IntegrityChecks :=
  let check1 := checkIrrelevantFactors vr
  let check2 := checkRejectedFactorsExcluded syn t
  let check3 := checkCircularReasoning vr
  let check4 := checkCriticWonDebate t
  let check5 := checkAllFactorsResolved factorIds t
  { irrelevantFactors := check1, rejectedFactorsExcluded := check2,
    circularReasoning := check3, criticWonDebate := check4,
    allFactorsResolved := check5, synthesisValid := check2 && check5 }

/-! ## Spec-side definition for the sub-claims refinement (claim C4)

The spec says sub-claims are parsed from a `SUB-CLAIMS:` block as lines of the
form `- <claim>: ACCEPTED|REJECTED`. The following definition follows the
spec's words (it is the comparison point, not a translation of the code). -/

/-- Drop the last `n` characters. -/
def dropLastN (l : List Char) (n : Nat) : List Char := l.take (l.length - n)

/-- Modelled from the spec: parse one line of a `SUB-CLAIMS:` block, of the
form `- <claim>: ACCEPTED|REJECTED`. -/
def specSubClaimLine (line : String) : Option (String × String) :=
  let l := strTrim line
  if listHasPfx ['-', ' '] l.data then
    let body := l.data.drop 2
    if strEndsWith (String.mk body) ": ACCEPTED" then
      some (strTrim (String.mk (dropLastN body 10)), "ACCEPTED")
    else if strEndsWith (String.mk body) ": REJECTED" then
      some (strTrim (String.mk (dropLastN body 10)), "REJECTED")
    else none
  else none

/-- Modelled from the spec: the `(claim, status)` pairs of the `SUB-CLAIMS:`
block of a response ("sub-claims are parsed from a SUB-CLAIMS: block (lines of
`- <claim>: ACCEPTED|REJECTED`)"); empty when the block is absent. -/
def specSubClaimsBlock (response : String) : List (String × String) :=
  match findAfterCI "SUB-CLAIMS:".data response.data with
  | none => []
  | some rest =>
    ((splitOnChar '\n' rest).map (fun l => String.mk l)).filterMap specSubClaimLine

/-! ## Claim-state operations as a sequence (for the INVALIDATED invariant) -/

/-- The invariant of spec section 3: `status == INVALIDATED` implies
`confidence == 0`. -/
def claimInvariant (c : Claim) : Prop :=
  c.status = ClaimStatus.INVALIDATED → c.confidence = 0

/-- One state-changing operation on a `Claim` (the four mutators of
claims.py). -/
inductive ClaimOp where
  | weaken (reason : String)
  | invalidate (reason : String)
  | concede
  | challengeAssumption (idx : Int) (reason : String)

/-- Apply one operation. -/
def applyOp (c : Claim) : ClaimOp → Claim
  | ClaimOp.weaken reason => c.weaken reason
  | ClaimOp.invalidate reason => c.invalidate reason
  | ClaimOp.concede => c.concede
  | ClaimOp.challengeAssumption idx reason => (c.challengeAssumption idx reason).2

/-- Apply a sequence of operations, oldest first. -/
def applyOps (c : Claim) (ops : List ClaimOp) : Claim :=
  ops.foldl applyOp c

/-- A claim as the agents construct it (all dataclass defaults,
claims.py lines 57-76). -/
def baseClaim : Claim := { claimId := "claim_0", content := "text" }

/-- A concrete claim with two assumptions, for the C10 witness. -/
def claimTwoAssumptions : Claim :=
  { claimId := "claim_1", content := "text",
    assumptions := [{ description := "a0" }, { description := "a1" }] }

/-- A concrete REJECTED tracker record for factor 3 (C7 witness data). -/
def rejectedRec3 : TrackRec :=
  { status := "REJECTED", justification := "bad", subClaims := [],
    criticAgentId := none }

/-- The record an ACCEPTED `set_resolution` call stores (C8 witness data). -/
def acceptedRec1 : TrackRec :=
  { status := "ACCEPTED", justification := "ok", subClaims := [],
    criticAgentId := none }

/-! ## Helper lemmas: the pre-guard resolution is always one of the three
allowed strings, so the final guard never fires. -/

theorem parseResolutionToken_mem (s : List Char) (r : String × Bool)
    (h : parseResolutionToken s = some r) : r.1 ∈ allowedResolutions := by
  unfold parseResolutionToken at h
  repeat' split at h
  all_goals try cases h
  all_goals simp [allowedResolutions]

theorem findResolution_mem (l : List Char) (r : String × Bool)
    (h : findResolution l = some r) : r.1 ∈ allowedResolutions := by
  induction l with
  | nil => simp [findResolution] at h
  | cons c cs ih =>
    unfold findResolution at h
    split at h
    · split at h
      · cases h; exact parseResolutionToken_mem _ _ (by assumption)
      · exact ih h
    · exact ih h

theorem parsedResolution_mem (response : String) :
    (parsedResolution response).1 ∈ allowedResolutions := by
  unfold parsedResolution
  split
  · exact findResolution_mem _ _ (by assumption)
  · split_ifs <;> simp [allowedResolutions]

theorem causalityOverride_fst (msgs : List BusMessage) (fid : Int)
    (response : String) (rj : String × String) :
    (causalityOverride msgs fid response rj).1 = "REJECTED"
      ∨ (causalityOverride msgs fid response rj).1 = rj.1 := by
  unfold causalityOverride
  split
  · split
    · split_ifs <;> simp
    · simp
  · simp

theorem descriptiveNote_fst (isDescriptiveOnly : Bool) (rj : String × String) :
    (descriptiveNote isDescriptiveOnly rj).1 = rj.1 := by
  unfold descriptiveNote
  split <;> rfl

theorem critiqueParseBranch_mem (inp : CritiqueInput) :
    (critiqueParseBranch inp).1 ∈ allowedResolutions := by
  unfold critiqueParseBranch
  rw [descriptiveNote_fst]
  rcases causalityOverride_fst inp.messages inp.factor.id inp.response
      ((parsedResolution inp.response).1, parsedJustification inp.response) with h | h
  · simp [h, allowedResolutions]
  · rw [h]
    exact parsedResolution_mem inp.response

theorem resolutionAndJustification_mem (inp : CritiqueInput) :
    (resolutionAndJustification inp).1 ∈ allowedResolutions := by
  unfold resolutionAndJustification
  split
  · simp [allowedResolutions]
  · split
    · simp [allowedResolutions]
    · exact critiqueParseBranch_mem inp

/-- The final guard never changes anything: the recorded resolution equals the
pre-guard one. -/
theorem critiqueFactor_resolution (inp : CritiqueInput) :
    (critiqueFactor inp).resolution = (resolutionAndJustification inp).1 := by
  unfold critiqueFactor finalGuard
  simp [resolutionAndJustification_mem inp]

/-- Rule 1 in isolation: concession, circularity or ungroundedness forces the
pre-guard resolution to REJECTED. -/
theorem autoReject_rejected (inp : CritiqueInput)
    (h : autoRejectCond inp.messages inp.factor = true) :
    (resolutionAndJustification inp).1 = "REJECTED" := by
  unfold resolutionAndJustification
  simp [h]

/-- The final guard also leaves the justification unchanged. -/
theorem critiqueFactor_justification (inp : CritiqueInput) :
    (critiqueFactor inp).justification = (resolutionAndJustification inp).2 := by
  unfold critiqueFactor finalGuard
  simp [resolutionAndJustification_mem inp]

/-- C5: for a factor whose validation marks `is_circular=true`, `critique_factor`
records resolution REJECTED for any two language-model responses: the
resolution does not depend on the critique text when a deterministic validation
failure is present (critic_agent.py lines 235-249). -/
theorem c5_circular_always_rejected (f : Factor) (he : Bool) (it : String)
    (msgs : List BusMessage) (r₁ r₂ : String)
    (h : f.validation.isCircular = true) :
    (critiqueFactor ⟨f, he, it, msgs, r₁⟩).resolution = "REJECTED"
      ∧ (critiqueFactor ⟨f, he, it, msgs, r₂⟩).resolution = "REJECTED" := by
  constructor <;>
  · rw [critiqueFactor_resolution]
    apply autoReject_rejected
    simp [autoRejectCond, h]

/-- Witness for C5 at a concrete circular factor and two different responses. -/
theorem c5_circular_always_rejected_witness :
    (critiqueFactor ⟨⟨1, "growth", "growth happened", { isCircular := true }⟩, true,
        "doc", [], "RESOLUTION: ACCEPTED"⟩).resolution = "REJECTED"
      ∧ (critiqueFactor ⟨⟨1, "growth", "growth happened", { isCircular := true }⟩, true,
          "doc", [], "completely different text"⟩).resolution = "REJECTED" :=
  c5_circular_always_rejected ⟨1, "growth", "growth happened", { isCircular := true }⟩
    true "doc" [] "RESOLUTION: ACCEPTED" "completely different text" rfl

/-- C6: a non-causal factor (no causal keyword in name/description), a small
context (stripped input under 500 chars), and no concession / circularity /
ungroundedness give resolution ACCEPTED with the fixed descriptive-fact
justification, for every model response (critic_agent.py lines 235-237). -/
theorem c6_small_noncausal_auto_accept (f : Factor) (he : Bool) (it resp : String)
    (msgs : List BusMessage)
    (hcausal : isCausalClaim f = false)
    (hsmall : smallContext it = true)
    (hconc : hasConcessionFor msgs f.id = false)
    (hcirc : f.validation.isCircular = false)
    (hgr : f.validation.isGrounded = true) :
    (critiqueFactor ⟨f, he, it, msgs, resp⟩).resolution = "ACCEPTED"
      ∧ (critiqueFactor ⟨f, he, it, msgs, resp⟩).justification =
          "Descriptive fact from document - accepted without substantive debate" := by
  have har : autoRejectCond msgs f = false := by
    simp [autoRejectCond, hconc, hcirc, hgr]
  have hrj : resolutionAndJustification ⟨f, he, it, msgs, resp⟩ =
      ("ACCEPTED", "Descriptive fact from document - accepted without substantive debate") := by
    unfold resolutionAndJustification
    simp [hcausal, hsmall, har]
  exact ⟨by rw [critiqueFactor_resolution, hrj], by rw [critiqueFactor_justification, hrj]⟩

/-- Witness for C6 at a concrete non-causal factor in a small context, with a
model response that even says REJECTED. -/
theorem c6_small_noncausal_auto_accept_witness :
    (critiqueFactor ⟨⟨1, "Team size", "The team had five members", {}⟩, true,
        "Short doc.", [], "RESOLUTION: REJECTED"⟩).resolution = "ACCEPTED"
      ∧ (critiqueFactor ⟨⟨1, "Team size", "The team had five members", {}⟩, true,
          "Short doc.", [], "RESOLUTION: REJECTED"⟩).justification =
          "Descriptive fact from document - accepted without substantive debate" :=
  c6_small_noncausal_auto_accept ⟨1, "Team size", "The team had five members", {}⟩
    true "Short doc." "RESOLUTION: REJECTED" [] (by decide) (by decide) rfl rfl rfl

/-- C1 counterexample: the Supporting agent signalled `has_evidence=false`
(its response contained `INSUFFICIENT_EVIDENCE`), yet `critique_factor` records
ACCEPTED, not REJECTED — the code auto-rejects only for concession, circularity
or ungroundedness (critic_agent.py lines 238-240), never for the no-evidence
signal, as its own comment and `test_bug_fixes.py` state. -/
theorem c1_counterexample :
    supportHasEvidence "INSUFFICIENT_EVIDENCE: no direct quotes" = false
      ∧ (critiqueFactor ⟨⟨1, "Team size", "The team had five members", {}⟩,
          supportHasEvidence "INSUFFICIENT_EVIDENCE: no direct quotes",
          "Short doc.", [], "RESOLUTION: REJECTED"⟩).resolution = "ACCEPTED" := by
  decide

/-- C1 amended: the `has_evidence` flag of the SUPPORT_ARGUMENT never affects
the recorded resolution (it feeds only the prompt), and rule 1's auto-REJECT
fires exactly on concession, circularity or ungroundedness. -/
theorem c1_amended_no_evidence_signal (f : Factor) (he₁ he₂ : Bool)
    (it resp : String) (msgs : List BusMessage) :
    (critiqueFactor ⟨f, he₁, it, msgs, resp⟩).resolution
        = (critiqueFactor ⟨f, he₂, it, msgs, resp⟩).resolution
      ∧ (autoRejectCond msgs f = true →
          (critiqueFactor ⟨f, he₁, it, msgs, resp⟩).resolution = "REJECTED") := by
  constructor
  · rfl
  · intro h
    rw [critiqueFactor_resolution]
    exact autoReject_rejected _ h

/-- Witness for C1 (amended) at a concrete ungrounded factor with
`has_evidence=false`. -/
theorem c1_amended_no_evidence_signal_witness :
    (critiqueFactor ⟨⟨1, "n", "d", { isGrounded := false }⟩, false, "doc", [],
        "RESOLUTION: ACCEPTED"⟩).resolution = "REJECTED" :=
  (c1_amended_no_evidence_signal ⟨1, "n", "d", { isGrounded := false }⟩ false true
    "doc" "RESOLUTION: ACCEPTED" []).2 (by decide)

theorem updateStatus_invariant (c : Claim) (h : claimInvariant c) :
    claimInvariant (updateStatus c) := by
  unfold claimInvariant updateStatus
  split_ifs <;> intro hst
  all_goals first
    | rfl
    | exact absurd hst (by decide)
    | exact h hst

theorem applyOp_invariant (c : Claim) (op : ClaimOp) (h : claimInvariant c) :
    claimInvariant (applyOp c op) := by
  cases op with
  | weaken reason =>
    intro hst
    show max 0 (c.confidence - 1/5) = 0
    have hst' : (if c.status = ClaimStatus.SUPPORTED then ClaimStatus.WEAKENED
        else c.status) = ClaimStatus.INVALIDATED := hst
    by_cases hsup : c.status = ClaimStatus.SUPPORTED
    · rw [if_pos hsup] at hst'
      exact ClaimStatus.noConfusion hst'
    · rw [if_neg hsup] at hst'
      rw [h hst']
      exact max_eq_left (by norm_num)
  | invalidate reason => intro hst; rfl
  | concede =>
    intro hst
    exact ClaimStatus.noConfusion
      (show ClaimStatus.CONCEDED = ClaimStatus.INVALIDATED from hst)
  | challengeAssumption idx reason =>
    show claimInvariant (c.challengeAssumption idx reason).2
    unfold Claim.challengeAssumption
    split_ifs
    · exact updateStatus_invariant _ (fun hst => h hst)
    · exact h

/-- C2 amended (preservation half): the invariant `status == INVALIDATED →
confidence == 0` is preserved by every sequence of the Claim mutators
`weaken` / `invalidate` / `concede` / `challenge_assumption`. -/
theorem c2_invariant_under_claim_ops (ops : List ClaimOp) (c : Claim)
    (h : claimInvariant c) : claimInvariant (applyOps c ops) := by
  induction ops generalizing c with
  | nil => exact h
  | cons op rest ih => exact ih (applyOp c op) (applyOp_invariant c op h)

/-- Witness for C2 (amended): after invalidating and then weakening a concrete
claim, the status is INVALIDATED and the invariant forces confidence 0. -/
theorem c2_invariant_under_claim_ops_witness :
    (applyOps baseClaim [ClaimOp.invalidate "r1", ClaimOp.weaken "r2"]).confidence = 0 :=
  c2_invariant_under_claim_ops [ClaimOp.invalidate "r1", ClaimOp.weaken "r2"] baseClaim
    (fun hst => absurd hst (by decide)) (by decide)

/-- C2 counterexample: the critic's resolution-to-claim-status mapping
(critic_agent.py lines 388-390) produces a claim with status INVALIDATED and
confidence 0.9, violating the invariant `status == INVALIDATED → confidence ==
0`: here a circular factor is REJECTED and the recorded critique claim gets
confidence 0.9 ≠ 0. -/
theorem c2_counterexample :
    (critiqueFactor ⟨⟨1, "growth", "growth happened", { isCircular := true }⟩, true,
        "doc", [], "any model text"⟩).claimStatus = ClaimStatus.INVALIDATED
      ∧ (critiqueFactor ⟨⟨1, "growth", "growth happened", { isCircular := true }⟩, true,
          "doc", [], "any model text"⟩).claimConfidence = 9/10
      ∧ ¬((critiqueFactor ⟨⟨1, "growth", "growth happened", { isCircular := true }⟩, true,
          "doc", [], "any model text"⟩).claimConfidence = 0) := by
  have hv : (critiqueFactor ⟨⟨1, "growth", "growth happened", { isCircular := true }⟩, true,
      "doc", [], "any model text"⟩).claimConfidence = 9/10 := rfl
  refine ⟨by decide, hv, ?_⟩
  rw [hv]
  norm_num

/-- C9: `weaken()` never increases a (nonnegative) confidence and never drops
it below 0; `invalidate()` always sets confidence to exactly 0
(claims.py lines 104-115). -/
theorem c9_weaken_invalidate_confidence (c : Claim) (reason : String) :
    (0 ≤ c.confidence → (c.weaken reason).confidence ≤ c.confidence)
      ∧ 0 ≤ (c.weaken reason).confidence
      ∧ (c.invalidate reason).confidence = 0 := by
  refine ⟨?_, ?_, rfl⟩
  · intro h0
    show max 0 (c.confidence - 1/5) ≤ c.confidence
    exact max_le h0 (by linarith)
  · show (0 : ℚ) ≤ max 0 (c.confidence - 1/5)
    exact le_max_left _ _

/-- Witness for C9 at a concrete claim with the default confidence 0.5. -/
theorem c9_weaken_invalidate_confidence_witness :
    (baseClaim.weaken "r").confidence ≤ baseClaim.confidence
      ∧ (baseClaim.invalidate "r").confidence = 0 :=
  ⟨(c9_weaken_invalidate_confidence baseClaim "r").1 (by norm_num [baseClaim]),
   (c9_weaken_invalidate_confidence baseClaim "r").2.2⟩

/-! ## C10: challenge_assumption -/

theorem setAssumptionInvalid_length (l : List AssumptionR) (i : Nat) (r : String) :
    (setAssumptionInvalid l i r).length = l.length := by
  induction l generalizing i with
  | nil => rfl
  | cons a rest ih =>
    cases i with
    | zero => simp [setAssumptionInvalid]
    | succ n => simp [setAssumptionInvalid, ih]

theorem setAssumptionInvalid_get_self (l : List AssumptionR) (i : Nat) (r : String) :
    (setAssumptionInvalid l i r)[i]? =
      l[i]?.map (fun a => { a with isValid := some false, challengeReason := some r }) := by
  induction l generalizing i with
  | nil => simp [setAssumptionInvalid]
  | cons a rest ih =>
    cases i with
    | zero => simp [setAssumptionInvalid]
    | succ n => simpa [setAssumptionInvalid] using ih n

theorem setAssumptionInvalid_get_other (l : List AssumptionR) (i : Nat) (r : String)
    (j : Nat) (hj : j ≠ i) : (setAssumptionInvalid l i r)[j]? = l[j]? := by
  induction l generalizing i j with
  | nil => simp [setAssumptionInvalid]
  | cons a rest ih =>
    cases i with
    | zero =>
      cases j with
      | zero => exact absurd rfl hj
      | succ m => simp [setAssumptionInvalid]
    | succ n =>
      cases j with
      | zero => simp [setAssumptionInvalid]
      | succ m => simpa [setAssumptionInvalid] using ih n m (by omega)

theorem setAssumptionInvalid_any (l : List AssumptionR) (i : Nat) (r : String)
    (h : i < l.length) :
    (setAssumptionInvalid l i r).any (fun a => a.isValid == some false) = true := by
  induction l generalizing i with
  | nil => simp at h
  | cons a rest ih =>
    cases i with
    | zero => simp [setAssumptionInvalid]
    | succ n =>
      simp only [setAssumptionInvalid, List.any_cons]
      rw [ih n (by simpa using h)]
      simp

theorem updateStatus_assumptions (c : Claim) :
    (updateStatus c).assumptions = c.assumptions := by
  unfold updateStatus
  split_ifs <;> rfl

theorem updateStatus_confidence_of_all (c : Claim)
    (hne : c.assumptions.isEmpty = false)
    (hall : c.assumptions.all (fun a => a.isValid == some false) = true) :
    (updateStatus c).status = ClaimStatus.INVALIDATED
      ∧ (updateStatus c).confidence = 0 := by
  unfold updateStatus
  rw [hne, hall]
  simp

theorem updateStatus_confidence_of_any (c : Claim)
    (hall : c.assumptions.all (fun a => a.isValid == some false) = false)
    (hany : c.assumptions.any (fun a => a.isValid == some false) = true) :
    (updateStatus c).status = ClaimStatus.WEAKENED
      ∧ (updateStatus c).confidence = max 0 (c.confidence - 3/10) := by
  unfold updateStatus
  rw [hall, hany]
  simp

/-- C10: `challenge_assumption` with an out-of-range index (negative or ≥ the
number of assumptions) returns False and leaves the claim unchanged; with an
in-range index it returns True, marks exactly that assumption invalid with the
given reason, and then — all assumptions invalid → status INVALIDATED with
confidence 0; otherwise → status WEAKENED with confidence lowered by 0.3,
floored at 0 (claims.py lines 90-102, 122-135). -/
theorem c10_challenge_assumption (c : Claim) (idx : Int) (reason : String) :
    (¬(0 ≤ idx ∧ idx < (c.assumptions.length : Int)) →
      c.challengeAssumption idx reason = (false, c))
      ∧ ((0 ≤ idx ∧ idx < (c.assumptions.length : Int)) →
        (c.challengeAssumption idx reason).1 = true
        ∧ (c.challengeAssumption idx reason).2.assumptions[idx.toNat]?
            = c.assumptions[idx.toNat]?.map
                (fun a => { a with isValid := some false, challengeReason := some reason })
        ∧ (∀ j : Nat, j ≠ idx.toNat →
            (c.challengeAssumption idx reason).2.assumptions[j]? = c.assumptions[j]?)
        ∧ ((c.challengeAssumption idx reason).2.assumptions.all
              (fun a => a.isValid == some false) = true →
            (c.challengeAssumption idx reason).2.status = ClaimStatus.INVALIDATED
              ∧ (c.challengeAssumption idx reason).2.confidence = 0)
        ∧ ((c.challengeAssumption idx reason).2.assumptions.all
              (fun a => a.isValid == some false) = false →
            (c.challengeAssumption idx reason).2.status = ClaimStatus.WEAKENED
              ∧ (c.challengeAssumption idx reason).2.confidence
                  = max 0 (c.confidence - 3/10))) := by
  constructor
  · intro h
    unfold Claim.challengeAssumption
    rw [if_neg h]
  · intro h
    have hres : c.challengeAssumption idx reason = (true, updateStatus
        { c with assumptions :=
            setAssumptionInvalid c.assumptions idx.toNat reason }) := by
      unfold Claim.challengeAssumption
      rw [if_pos h]
    have hi : idx.toNat < c.assumptions.length := by omega
    have hassum : (c.challengeAssumption idx reason).2.assumptions
        = setAssumptionInvalid c.assumptions idx.toNat reason := by
      rw [hres]
      exact updateStatus_assumptions _
    refine ⟨by rw [hres], ?_, ?_, ?_, ?_⟩
    · rw [hassum]
      exact setAssumptionInvalid_get_self _ _ _
    · intro j hj
      rw [hassum]
      exact setAssumptionInvalid_get_other _ _ _ _ hj
    · intro hall
      rw [hassum] at hall
      rw [hres]
      refine updateStatus_confidence_of_all _ ?_ hall
      have hlen := setAssumptionInvalid_length c.assumptions idx.toNat reason
      cases hL : setAssumptionInvalid c.assumptions idx.toNat reason with
      | nil => rw [hL] at hlen; simp at hlen; omega
      | cons x xs => rfl
    · intro hall
      rw [hassum] at hall
      rw [hres]
      exact updateStatus_confidence_of_any _ hall
        (setAssumptionInvalid_any _ _ _ hi)

/-- Witness for C10: challenging index 0 of a two-assumption claim returns True
and weakens the claim; challenging index -1 returns False and changes nothing. -/
theorem c10_challenge_assumption_witness :
    (claimTwoAssumptions.challengeAssumption 0 "r").1 = true
      ∧ (claimTwoAssumptions.challengeAssumption 0 "r").2.status = ClaimStatus.WEAKENED
      ∧ claimTwoAssumptions.challengeAssumption (-1) "r" = (false, claimTwoAssumptions) :=
  ⟨((c10_challenge_assumption claimTwoAssumptions 0 "r").2 (by decide)).1,
   (((c10_challenge_assumption claimTwoAssumptions 0 "r").2 (by decide)).2.2.2.2
      (by decide)).1,
   (c10_challenge_assumption claimTwoAssumptions (-1) "r").1 (by decide)⟩

/-! ## C3: reactive-handler idempotency -/

/-- C3 counterexample: `SupportingAgent._on_critique` checks neither
`is_handled_by` nor calls `mark_handled` (supporting_agent.py lines 83-97), so
delivering the same CRITIQUE message (same id) twice to an agent holding a
claim for the factor publishes two rebuttals, not one. -/
theorem c3_counterexample :
    supportingOnCritique [1] ⟨some "m1", some 1⟩
        + supportingOnCritique [1] ⟨some "m1", some 1⟩ = 2
      ∧ ¬(supportingOnCritique [1] ⟨some "m1", some 1⟩
          + supportingOnCritique [1] ⟨some "m1", some 1⟩ = 1) := by
  decide

/-- C3 amended: the critic's support-argument handler checks `is_handled_by`
before processing and calls `mark_handled` after publishing, so a second
delivery of the same message publishes nothing (one downstream publish in
total); the supporting agent's critique handler has no idempotency guard and
publishes one rebuttal on every delivery. -/
theorem c3_amended_idempotency (bus : BusSt) (factors : List Int) (msg : InMessage)
    (mid : String) (fid : Int)
    (hid : truthyId msg.id = some mid)
    (hfid : truthyFid msg.factorId = some fid)
    (hnot : isHandledBy bus mid criticAgentId = false)
    (hfac : factors.contains fid = true) :
    (criticOnSupportArgument bus factors msg).2 = 1
      ∧ (criticOnSupportArgument (criticOnSupportArgument bus factors msg).1
          factors msg).2 = 0
      ∧ (∀ heldClaims : List Int, heldClaims.contains fid = true →
          supportingOnCritique heldClaims msg = 1) := by
  have hfac' : fid ∈ factors := by simpa using hfac
  have h1 : criticOnSupportArgument bus factors msg
      = (markHandled bus mid criticAgentId, 1) := by
    simp [criticOnSupportArgument, hid, hfid, hnot, hfac']
  refine ⟨by rw [h1], ?_, ?_⟩
  · rw [h1]
    simp [criticOnSupportArgument, hid, isHandledBy, markHandled]
  · intro heldClaims hheld
    have hheld' : fid ∈ heldClaims := by simpa using hheld
    simp [supportingOnCritique, hfid, hheld']

/-- Witness for C3 (amended) on a concrete bus and message. -/
theorem c3_amended_idempotency_witness :
    (criticOnSupportArgument ⟨[]⟩ [1] ⟨some "m1", some 1⟩).2 = 1
      ∧ (criticOnSupportArgument (criticOnSupportArgument ⟨[]⟩ [1]
          ⟨some "m1", some 1⟩).1 [1] ⟨some "m1", some 1⟩).2 = 0 :=
  ⟨(c3_amended_idempotency ⟨[]⟩ [1] ⟨some "m1", some 1⟩ "m1" 1 (by decide) (by decide)
      (by decide) (by decide)).1,
   (c3_amended_idempotency ⟨[]⟩ [1] ⟨some "m1", some 1⟩ "m1" 1 (by decide) (by decide)
      (by decide) (by decide)).2.1⟩

/-! ## C7: synthesis validity -/

/-- C7: `check_synthesis_validity` returns exactly
(rejected-factors-excluded) AND (all-factors-resolved) — the irrelevant-factor,
circular-reasoning and critic-won checks do not enter; and any factor id
marked REJECTED in the tracker that appears as a `factor_id` of a
`what_worked` entry makes `check_rejected_factors_excluded` return false
(integrity_checker.py lines 40-88, 164-202). -/
theorem c7_synthesis_validity (factorIds : List Int) (vr : ValidationResults)
    (t : ResTracker) (syn : Synthesis) :
    (checkSynthesisValidity factorIds vr t syn).synthesisValid
        = (checkRejectedFactorsExcluded syn t && checkAllFactorsResolved factorIds t)
      ∧ (∀ (rid : Int) (rec : TrackRec), (rid, rec) ∈ t → rec.status = "REJECTED" →
          SynItem.dict (some rid) ∈ syn.whatWorked →
          checkRejectedFactorsExcluded syn t = false) := by
  refine ⟨rfl, ?_⟩
  intro rid rec hmem hstat hwW
  have hridmem : rid ∈ getRejectedFactors t := by
    unfold getRejectedFactors
    exact List.mem_map.mpr ⟨(rid, rec), List.mem_filter.mpr ⟨hmem, by simp [hstat]⟩, rfl⟩
  have hids : some rid ∈ whatWorkedIds syn := by
    unfold whatWorkedIds
    exact List.mem_filterMap.mpr ⟨SynItem.dict (some rid), hwW, rfl⟩
  have hfalse : (getRejectedFactors t).isEmpty = false := by
    cases hgl : getRejectedFactors t with
    | nil => rw [hgl] at hridmem; exact absurd hridmem (List.not_mem_nil _)
    | cons x xs => rfl
  unfold checkRejectedFactorsExcluded
  rw [hfalse]
  simp only [Bool.false_eq_true, if_false, Bool.not_eq_false', List.any_eq_true]
  exact ⟨rid, hridmem, by simpa using hids⟩

/-- Witness for C7: a tracker rejecting factor 3 whose id appears in
`what_worked` yields an invalid synthesis. -/
theorem c7_synthesis_validity_witness :
    checkRejectedFactorsExcluded ⟨[SynItem.dict (some 3)]⟩ [(3, rejectedRec3)] = false :=
  (c7_synthesis_validity [3] ⟨0, 0⟩ [(3, rejectedRec3)] ⟨[SynItem.dict (some 3)]⟩).2
    3 rejectedRec3 (by decide) rfl (by decide)

/-! ## C8: set_resolution -/

theorem insertReplace_lookup_self (t : ResTracker) (fid : Int) (r : TrackRec) :
    lookupRes (insertReplace t fid r) fid = some r := by
  induction t with
  | nil => simp [insertReplace, lookupRes]
  | cons kv rest ih =>
    obtain ⟨k, v⟩ := kv
    by_cases hk : k = fid
    · subst hk
      simp [insertReplace, lookupRes]
    · simpa [insertReplace, lookupRes, hk] using ih

theorem insertReplace_lookup_other (t : ResTracker) (fid fid' : Int) (r : TrackRec)
    (h : fid' ≠ fid) :
    lookupRes (insertReplace t fid r) fid' = lookupRes t fid' := by
  induction t with
  | nil => simp [insertReplace, lookupRes, Ne.symm h]
  | cons kv rest ih =>
    obtain ⟨k, v⟩ := kv
    by_cases hk : k = fid
    · subst hk
      simp [insertReplace, lookupRes, Ne.symm h]
    · by_cases hk' : k = fid'
      · subst hk'
        simp [insertReplace, hk, lookupRes]
      · simpa [insertReplace, lookupRes, hk, hk'] using ih

theorem insertReplace_keys_sub (t : ResTracker) (fid : Int) (r : TrackRec) :
    ∀ x ∈ (insertReplace t fid r).map Prod.fst, x = fid ∨ x ∈ t.map Prod.fst := by
  induction t with
  | nil => simp [insertReplace]
  | cons kv rest ih =>
    obtain ⟨k, v⟩ := kv
    by_cases hk : k = fid
    · subst hk
      simp [insertReplace]
    · intro x hx
      simp only [insertReplace, hk, if_false, List.map_cons, List.mem_cons] at hx
      rcases hx with hx | hx
      · right; simp [hx]
      · rcases ih x hx with h1 | h1
        · exact Or.inl h1
        · right; simp [h1]

theorem insertReplace_keys_nodup (t : ResTracker) (fid : Int) (r : TrackRec)
    (h : (t.map Prod.fst).Nodup) :
    ((insertReplace t fid r).map Prod.fst).Nodup := by
  induction t with
  | nil => simp [insertReplace]
  | cons kv rest ih =>
    obtain ⟨k, v⟩ := kv
    simp only [List.map_cons, List.nodup_cons] at h
    by_cases hk : k = fid
    · subst hk
      simpa [insertReplace] using h
    · have hsub := insertReplace_keys_sub rest fid r
      simp only [insertReplace, hk, if_false, List.map_cons, List.nodup_cons]
      refine ⟨fun hmem => ?_, ih h.2⟩
      rcases hsub k hmem with h1 | h1
      · exact hk h1
      · exact h.1 h1

/-- C8: `set_resolution` raises exactly when status is PARTIALLY_ACCEPTED with
empty-or-missing sub-claims (an error is returned, nothing is stored: the
tracker passed in is untouched); any other call stores the record under the
factor id, overwriting any earlier entry for that id, leaving other ids
unchanged, and keeping at most one entry per factor id
(resolution_tracker.py lines 25-59). -/
theorem c8_set_resolution (t : ResTracker) (fid : Int) (status : ResolutionStatus)
    (just : String) (subClaims : Option (List SubClaim)) (critic : Option String) :
    let r : TrackRec :=
      { status := status.val, justification := just,
        subClaims := subClaims.getD [], criticAgentId := critic }
    ((status = ResolutionStatus.PARTIALLY_ACCEPTED ∧ (subClaims.getD []).isEmpty = true) →
        setResolution t fid status just subClaims critic
          = Except.error "PARTIALLY_ACCEPTED status requires sub_claims to be specified")
      ∧ (¬(status = ResolutionStatus.PARTIALLY_ACCEPTED
            ∧ (subClaims.getD []).isEmpty = true) →
          setResolution t fid status just subClaims critic
              = Except.ok (insertReplace t fid r)
            ∧ lookupRes (insertReplace t fid r) fid = some r
            ∧ (∀ fid' : Int, fid' ≠ fid →
                lookupRes (insertReplace t fid r) fid' = lookupRes t fid')
            ∧ ((t.map Prod.fst).Nodup → ((insertReplace t fid r).map Prod.fst).Nodup)) := by
  intro r
  constructor
  · intro h
    unfold setResolution
    rw [if_pos h]
  · intro h
    refine ⟨?_, insertReplace_lookup_self t fid r, ?_, insertReplace_keys_nodup t fid r⟩
    · unfold setResolution
      rw [if_neg h]
    · intro fid' hne
      exact insertReplace_lookup_other t fid fid' r hne

/-- Witness for C8: a PARTIALLY_ACCEPTED call with empty sub-claims errors; an
ACCEPTED call stores its record. -/
theorem c8_set_resolution_witness :
    setResolution [] 2 ResolutionStatus.PARTIALLY_ACCEPTED "j" (some []) none
        = Except.error "PARTIALLY_ACCEPTED status requires sub_claims to be specified"
      ∧ setResolution [] 1 ResolutionStatus.ACCEPTED "ok" none none
          = Except.ok [(1, acceptedRec1)] :=
  ⟨(c8_set_resolution [] 2 ResolutionStatus.PARTIALLY_ACCEPTED "j" (some []) none).1
      ⟨rfl, rfl⟩,
   ((c8_set_resolution [] 1 ResolutionStatus.ACCEPTED "ok" none none).2 (by simp)).1⟩

/-! ## C4: sub-claims recorded for PARTIALLY_ACCEPTED -/

/-- C4 amended: when `critique_factor` records PARTIALLY_ACCEPTED, the recorded
sub-claims are built from the response's first two `•` bullet lines, and when
fewer than two bullet lines exist the two generic placeholders are synthesized
— regardless of any `SUB-CLAIMS:` block (its parse at critic_agent.py lines
307-317 is overwritten by `sub_claims = []` at line 320 and never recorded).
For any other resolution the recorded sub-claims are empty. -/
theorem c4_subclaims_from_bullets (inp : CritiqueInput) :
    ((critiqueFactor inp).resolution = "PARTIALLY_ACCEPTED" →
      (critiqueFactor inp).subClaims =
        (match bulletPoints inp.response with
         | b0 :: b1 :: _ =>
           [{ claim := bulletClaimText b0, status := "ACCEPTED",
              justification := "Valid counter-argument acknowledged" },
            { claim := bulletClaimText b1, status := "NEEDS_CLARIFICATION",
              justification := "Requires further evidence or clarification" }]
         | _ => genericSubClaims))
      ∧ ((critiqueFactor inp).resolution ≠ "PARTIALLY_ACCEPTED" →
          (critiqueFactor inp).subClaims = []) := by
  have hsub : (critiqueFactor inp).subClaims
      = subClaimsFor (resolutionAndJustification inp).1 inp.response := rfl
  have hres := critiqueFactor_resolution inp
  have hmem := resolutionAndJustification_mem inp
  simp only [allowedResolutions, List.mem_cons, List.mem_singleton,
    List.not_mem_nil, or_false] at hmem
  constructor
  · intro h
    rw [hres] at h
    rw [hsub, h]
    unfold subClaimsFor
    rw [if_pos (by decide)]
  · intro h
    rw [hres] at h
    rw [hsub]
    rcases hmem with h1 | h1 | h1
    · rw [h1]
      unfold subClaimsFor
      rw [if_neg (by decide)]
    · exact absurd h1 h
    · rw [h1]
      unfold subClaimsFor
      rw [if_neg (by decide)]

/-- Witness for C4 (amended): a PARTIALLY_ACCEPTED response without bullet
lines records the generic placeholder sub-claims. -/
theorem c4_subclaims_from_bullets_witness :
    (critiqueFactor ⟨⟨2, "Budget cut", "Revenue fell because of the budget cut", {}⟩,
        true, "doc", [],
        "RESOLUTION: PARTIALLY_ACCEPTED\nJUSTIFICATION: mixed"⟩).subClaims
      = genericSubClaims :=
  Eq.trans
    ((c4_subclaims_from_bullets ⟨⟨2, "Budget cut", "Revenue fell because of the budget cut",
        {}⟩, true, "doc", [],
        "RESOLUTION: PARTIALLY_ACCEPTED\nJUSTIFICATION: mixed"⟩).1 (by decide))
    (by decide)

/-- C4 counterexample: the model response carries an explicit `SUB-CLAIMS:`
block (`- Alpha: ACCEPTED`, `- Beta: REJECTED`), the resolution is
PARTIALLY_ACCEPTED, and yet the recorded sub-claims are the two generic
placeholders, not the block's entries — the block's parse is dead code. -/
theorem c4_counterexample :
    (critiqueFactor ⟨⟨2, "Budget cut", "Revenue fell because of the budget cut", {}⟩,
        true, "doc", [],
        "RESOLUTION: PARTIALLY_ACCEPTED\nJUSTIFICATION: mixed\nSUB-CLAIMS:\n- Alpha: ACCEPTED\n- Beta: REJECTED"⟩).resolution
      = "PARTIALLY_ACCEPTED"
    ∧ specSubClaimsBlock
        "RESOLUTION: PARTIALLY_ACCEPTED\nJUSTIFICATION: mixed\nSUB-CLAIMS:\n- Alpha: ACCEPTED\n- Beta: REJECTED"
      = [("Alpha", "ACCEPTED"), ("Beta", "REJECTED")]
    ∧ (critiqueFactor ⟨⟨2, "Budget cut", "Revenue fell because of the budget cut", {}⟩,
        true, "doc", [],
        "RESOLUTION: PARTIALLY_ACCEPTED\nJUSTIFICATION: mixed\nSUB-CLAIMS:\n- Alpha: ACCEPTED\n- Beta: REJECTED"⟩).subClaims
      = genericSubClaims
    ∧ (critiqueFactor ⟨⟨2, "Budget cut", "Revenue fell because of the budget cut", {}⟩,
        true, "doc", [],
        "RESOLUTION: PARTIALLY_ACCEPTED\nJUSTIFICATION: mixed\nSUB-CLAIMS:\n- Alpha: ACCEPTED\n- Beta: REJECTED"⟩).subClaims.map
          (fun sc => (sc.claim, sc.status))
      ≠ specSubClaimsBlock
          "RESOLUTION: PARTIALLY_ACCEPTED\nJUSTIFICATION: mixed\nSUB-CLAIMS:\n- Alpha: ACCEPTED\n- Beta: REJECTED" := by
  refine ⟨by decide, by decide, by decide, by decide⟩
